import Mathlib

/-!
Shallow embedding of the core of the `stock-analysis` repository:
the indicator engine and rule-based signal generator
(`src/services/technicalAnalysis.service.js`), the AI-enhancement
adapter (`src/services/aiEnhancement.service.js`) and the
technical/AI fusion logic of `analyzeStock`
(`src/services/analysis.service.js`), together with the pieces of
`src/config/index.config.js` they read.

JavaScript numbers are modelled as `ℚ` (the algorithm only adds,
scales by fixed rational constants and compares, so exact rational
arithmetic mirrors every branch decision), confidence scores as `ℚ`
values that happen to be integers, and fallible results as `Except`.
-/

namespace StockAnalysis

/-! ## Configuration (`src/config/index.config.js`) -/

/-- RSI parameter set: `{period, oversold, overbought}`. -/
structure RsiParams where
  period : ℕ
  oversold : ℚ
  overbought : ℚ
deriving Repr, DecidableEq

/-- Bollinger-Bands parameter set: `{period, stdDev}`. -/
structure BbParams where
  period : ℕ
  stdDev : ℚ
deriving Repr, DecidableEq

/-- Mirrors `config.analysis.rsi = {period: 14, oversold: 30, overbought: 70}`. -/
def configAnalysisRsi : RsiParams := ⟨14, 30, 70⟩

/-- Mirrors `config.crypto.analysis.rsi = {period: 14, oversold: 25, overbought: 75}`. -/
def configCryptoRsi : RsiParams := ⟨14, 25, 75⟩

/-- Mirrors `config.analysis.bollingerBands = {period: 20, stdDev: 2}`. -/
def configAnalysisBb : BbParams := ⟨20, 2⟩

/-- Mirrors `config.crypto.analysis.bollingerBands = {period: 20, stdDev: 2.5}`. -/
def configCryptoBb : BbParams := ⟨20, 5/2⟩

/-- Mirrors `config.analysis.signalThreshold = 30`. -/
def configSignalThreshold : ℚ := 30

/-- Mirrors `config.analysis.supportResistance.lookbackPeriod = 30`. -/
def configLookbackPeriod : ℕ := 30

/-- Mirrors `config.crypto.supportedSymbols`. -/
def configCryptoSupportedSymbols : List String :=
  ["BTC-USD", "ETH-USD", "USDT-USD", "XRP-USD", "BNB-USD",
   "ADA-USD", "SOL-USD", "DOT-USD", "DOGE-USD", "SHIB-USD"]

/-! ## Asset classification (`technicalAnalysis.service.js`) -/

/-- Mirrors `String.prototype.endsWith`, expressed on the character list
(equivalent to the byte-level test on well-formed strings). -/
def jsEndsWith (s suffix : String) : Bool :=
  suffix.data.isSuffixOf s.data

/-- Mirrors `isCryptocurrency(symbol)`: member of the supported-symbol list,
or the symbol ends with `-USD` or `.X`. -/
def isCryptocurrency (symbol : String) : Bool :=
  configCryptoSupportedSymbols.contains symbol ||
    jsEndsWith symbol "-USD" || jsEndsWith symbol ".X"

/-- Mirrors `getAnalysisParams(symbol, 'rsi')`: the crypto override exists,
so crypto symbols get `config.crypto.analysis.rsi`, others `config.analysis.rsi`. -/
def getAnalysisParamsRsi (symbol : String) : RsiParams :=
  if isCryptocurrency symbol then configCryptoRsi else configAnalysisRsi

/-- Mirrors `getAnalysisParams(symbol, 'bollingerBands')`. -/
def getAnalysisParamsBb (symbol : String) : BbParams :=
  if isCryptocurrency symbol then configCryptoBb else configAnalysisBb

/-! ## Data model -/

/-- One historical price bar. The `open` field of the JavaScript object is
renamed `openPrice` because `open` is a Lean keyword; the core only ever
reads `high`, `low`, `close` and `volume`. -/
structure PriceBar where
  date : ℕ
  openPrice : ℚ
  high : ℚ
  low : ℚ
  close : ℚ
  volume : ℚ
deriving Repr, DecidableEq

/-- Last SMA values kept in the snapshot: `{sma20, sma50, sma200}`. -/
structure SmaTriple where
  sma20 : ℚ
  sma50 : ℚ
  sma200 : ℚ
deriving Repr, DecidableEq

/-- Last MACD triple kept in the snapshot: `{MACD, signal, histogram}`. -/
structure MacdTriple where
  MACD : ℚ
  signal : ℚ
  histogram : ℚ
deriving Repr, DecidableEq

/-- Last Bollinger-Bands triple kept in the snapshot: `{lower, middle, upper}`. -/
structure BbTriple where
  lower : ℚ
  middle : ℚ
  upper : ℚ
deriving Repr, DecidableEq

/-- The indicator snapshot returned by `calculateIndicators` on success.
`avgVolume20` and `currentVolume` are `Option ℚ` because `generateSignal`
guards them with `typeof x === 'number'` (they are absent on snapshots
produced by older call sites). -/
structure IndicatorSnapshot where
  lastPrice : ℚ
  sma : SmaTriple
  rsi : ℚ
  macd : MacdTriple
  bollingerBands : BbTriple
  supportLevel : ℚ
  resistanceLevel : ℚ
  avgVolume20 : Option ℚ
  currentVolume : Option ℚ
deriving Repr, DecidableEq

/-- Result of `generateSignal` (and shape of the opinions fed to fusion):
`{signal, confidence, reasons}`. -/
structure SignalOpinion where
  signal : String
  confidence : ℚ
  reasons : List String
deriving Repr, DecidableEq

/-! ## Indicator engine (`calculateIndicators`) -/

/-- The external `technicalindicators` npm package, which is not part of
this repository. Each field abstracts `X.calculate({...})` followed by the
code taking the last element of the returned series; the repository treats
these as opaque numeric functions of the close series and the parameters. -/
structure TechnicalIndicatorsLib where
  smaLast : ℕ → List ℚ → ℚ
  rsiLast : ℕ → List ℚ → ℚ
  macdLast : ℕ → ℕ → ℕ → List ℚ → MacdTriple
  bbLast : ℕ → ℚ → List ℚ → BbTriple

/-- Mirrors JavaScript `list.slice(-k)`: the trailing `k` elements
(the whole list when it is shorter than `k`). -/
def jsSliceLast (k : ℕ) (l : List ℚ) : List ℚ :=
  l.drop (l.length - k)

/-- Mirrors `Math.min(...l)` for the nonempty lists it is applied to
(`calculateIndicators` only calls it on a slice of a length-≥-50 list). -/
def jsMinList : List ℚ → ℚ
  | [] => 0
  | [x] => x
  | x :: y :: t => min x (jsMinList (y :: t))

/-- Mirrors `Math.max(...l)` for the nonempty lists it is applied to. -/
def jsMaxList : List ℚ → ℚ
  | [] => 0
  | [x] => x
  | x :: y :: t => max x (jsMaxList (y :: t))

/-- Mirrors `calculateIndicators(data, symbol)` from
`technicalAnalysis.service.js`: `null` data or fewer than 50 bars yields
the error object, otherwise the snapshot of final indicator values,
support/resistance as min/max of the trailing 30 closes, and the
20-bar volume average (guarded division). The source also extracts
`highs` and `lows` arrays it never uses; those dead locals are omitted. -/
def calculateIndicators (lib : TechnicalIndicatorsLib)
    (data : Option (List PriceBar)) (symbol : String) :
    Except String IndicatorSnapshot :=
  match data with
  | none => Except.error "Insufficient data for analysis"
  | some bars =>
    if bars.length < 50 then
      Except.error "Insufficient data for analysis"
    else
      let closes := bars.map PriceBar.close
      let volumes := bars.map PriceBar.volume
      let rsiParams := getAnalysisParamsRsi symbol
      let bbParams := getAnalysisParamsBb symbol
      let lastPrice := (closes.getLast?).getD 0
      let recentPrices := jsSliceLast configLookbackPeriod closes
      let supportLevel := jsMinList recentPrices
      let resistanceLevel := jsMaxList recentPrices
      let vol20 := jsSliceLast 20 volumes
      let avgVolume20 := (vol20.foldl (· + ·) (0 : ℚ)) / ((max vol20.length 1 : ℕ) : ℚ)
      let currentVolume := (volumes.getLast?).getD 0
      Except.ok
        { lastPrice := lastPrice
          sma := ⟨lib.smaLast 20 closes, lib.smaLast 50 closes,
                  lib.smaLast 200 closes⟩
          rsi := lib.rsiLast rsiParams.period closes
          macd := lib.macdLast 12 26 9 closes
          bollingerBands := lib.bbLast bbParams.period bbParams.stdDev closes
          supportLevel := supportLevel
          resistanceLevel := resistanceLevel
          avgVolume20 := some avgVolume20
          currentVolume := some currentVolume }

/-! ## Rule-based signal generator (`generateSignal`) -/

/-- Running state of `generateSignal`: the two confidence accumulators and
the two reason lists (`buySignals` / `sellSignals` in the source). -/
structure ScoreState where
  buyConfidence : ℚ
  sellConfidence : ℚ
  buySignals : List String
  sellSignals : List String
deriving Repr, DecidableEq

/-- Initial state: both scores 0, both reason lists empty. -/
def initScore : ScoreState := ⟨0, 0, [], []⟩

/-- One `if (cond) { buySignals.push(r); buyConfidence += w; }` step. -/
def addBuyIf (c : Prop) [Decidable c] (w : ℚ) (r : String)
    (st : ScoreState) : ScoreState :=
  if c then
    { st with buyConfidence := st.buyConfidence + w
              buySignals := st.buySignals ++ [r] }
  else st

/-- One `if (cond) { sellSignals.push(r); sellConfidence += w; }` step. -/
def addSellIf (c : Prop) [Decidable c] (w : ℚ) (r : String)
    (st : ScoreState) : ScoreState :=
  if c then
    { st with sellConfidence := st.sellConfidence + w
              sellSignals := st.sellSignals ++ [r] }
  else st

/-- The first four condition groups of `generateSignal`, in source order:
SMA50 band (±15), RSI thresholds (±20), MACD vs signal line (±20),
support/resistance proximity (±15). -/
def applyPhase1 (ind : IndicatorSnapshot) (rsiParams : RsiParams)
    (st : ScoreState) : ScoreState :=
  let st := addBuyIf
    (ind.lastPrice > ind.sma.sma50 ∧ ind.lastPrice < ind.sma.sma50 * (102/100))
    15 "Price crossed above 50-day SMA" st
  let st := addSellIf
    (ind.lastPrice < ind.sma.sma50 ∧ ind.lastPrice > ind.sma.sma50 * (98/100))
    15 "Price crossed below 50-day SMA" st
  let st := addBuyIf (ind.rsi < rsiParams.oversold)
    20 "RSI indicates oversold condition" st
  let st := addSellIf (ind.rsi > rsiParams.overbought)
    20 "RSI indicates overbought condition" st
  let st := addBuyIf (ind.macd.MACD > ind.macd.signal ∧ ind.macd.histogram > 0)
    20 "MACD crossed above signal line" st
  let st := addSellIf (ind.macd.MACD < ind.macd.signal ∧ ind.macd.histogram < 0)
    20 "MACD crossed below signal line" st
  let st := addBuyIf (ind.lastPrice < ind.supportLevel * (105/100))
    15 "Price near support level" st
  let st := addSellIf (ind.lastPrice > ind.resistanceLevel * (95/100))
    15 "Price near resistance level" st
  st

/-- The volume-based confidence adjustment block of `generateSignal`,
exactly as in the source: guarded by both volume fields being numbers and
`avgVolume20 > 0`; high volume (`> 1.5×avg`) boosts the leading side by 10
or both by 5 on a nonzero tie; low volume (`< 0.7×avg`) reduces the leading
side by 5 or both by 2 on a nonzero tie, clamped at 0 via `Math.max`. -/
def applyVolume (ind : IndicatorSnapshot) (st : ScoreState) : ScoreState :=
  match ind.currentVolume, ind.avgVolume20 with
  | some currentVolume, some avgVolume20 =>
    if avgVolume20 > 0 then
      if currentVolume > avgVolume20 * (3/2) then
        if st.buyConfidence > st.sellConfidence then
          { st with buyConfidence := st.buyConfidence + 10
                    buySignals := st.buySignals ++
                      ["High volume supports bullish signal"] }
        else if st.sellConfidence > st.buyConfidence then
          { st with sellConfidence := st.sellConfidence + 10
                    sellSignals := st.sellSignals ++
                      ["High volume supports bearish signal"] }
        else if st.buyConfidence = st.sellConfidence ∧ st.buyConfidence > 0 then
          { st with buyConfidence := st.buyConfidence + 5
                    sellConfidence := st.sellConfidence + 5
                    buySignals := st.buySignals ++
                      ["High volume present, but signals are mixed"]
                    sellSignals := st.sellSignals ++
                      ["High volume present, but signals are mixed"] }
        else st
      else if currentVolume < avgVolume20 * (7/10) then
        if st.buyConfidence > st.sellConfidence then
          { st with buyConfidence := max 0 (st.buyConfidence - 5)
                    buySignals := st.buySignals ++
                      ["Low volume reduces bullish confidence"] }
        else if st.sellConfidence > st.buyConfidence then
          { st with sellConfidence := max 0 (st.sellConfidence - 5)
                    sellSignals := st.sellSignals ++
                      ["Low volume reduces bearish confidence"] }
        else if st.buyConfidence = st.sellConfidence ∧ st.buyConfidence > 0 then
          { st with buyConfidence := max 0 (st.buyConfidence - 2)
                    sellConfidence := max 0 (st.sellConfidence - 2)
                    buySignals := st.buySignals ++
                      ["Low volume present, confidence reduced"]
                    sellSignals := st.sellSignals ++
                      ["Low volume present, confidence reduced"] }
        else st
      else st
    else st
  | _, _ => st

/-- The last two condition groups of `generateSignal`, in source order:
Bollinger Bands (±15) and Golden/Death Cross (±25). These come after the
volume block in the source. -/
def applyPhase2 (ind : IndicatorSnapshot) (st : ScoreState) : ScoreState :=
  let st := addBuyIf (ind.lastPrice < ind.bollingerBands.lower)
    15 "Price below lower Bollinger Band" st
  let st := addSellIf (ind.lastPrice > ind.bollingerBands.upper)
    15 "Price above upper Bollinger Band" st
  let st := addBuyIf
    (ind.sma.sma50 > ind.sma.sma200 ∧ ind.sma.sma50 < ind.sma.sma200 * (102/100))
    25 "Golden Cross detected" st
  let st := addSellIf
    (ind.sma.sma50 < ind.sma.sma200 ∧ ind.sma.sma50 > ind.sma.sma200 * (98/100))
    25 "Death Cross detected" st
  st

/-- The final-decision block of `generateSignal`: strict lead plus the
signal threshold picks buy or sell with that side's score and reasons;
otherwise hold with `100 - max(buyConfidence, sellConfidence)` and a
single default reason. -/
def finalDecision (st : ScoreState) : SignalOpinion :=
  if st.buyConfidence > st.sellConfidence ∧
      st.buyConfidence ≥ configSignalThreshold then
    ⟨"buy", st.buyConfidence, st.buySignals⟩
  else if st.sellConfidence > st.buyConfidence ∧
      st.sellConfidence ≥ configSignalThreshold then
    ⟨"sell", st.sellConfidence, st.sellSignals⟩
  else
    ⟨"hold", 100 - max st.buyConfidence st.sellConfidence,
     ["No strong buy or sell signals detected"]⟩

/-- The full score pipeline of `generateSignal` on a valid snapshot, in
source order: the four leading condition groups, then the volume
adjustment, then Bollinger Bands and Golden/Death Cross. -/
def scoreSnapshot (ind : IndicatorSnapshot) (symbol : String) : ScoreState :=
  applyPhase2 ind (applyVolume ind
    (applyPhase1 ind (getAnalysisParamsRsi symbol) initScore))

/-- Mirrors `generateSignal(indicators, symbol)`: an error argument
short-circuits to `{signal: 'hold', confidence: 0, reasons: ['Insufficient data']}`;
otherwise the scored snapshot goes through the final decision. -/
def generateSignal (indicators : Except String IndicatorSnapshot)
    (symbol : String) : SignalOpinion :=
  match indicators with
  | Except.error _ => ⟨"hold", 0, ["Insufficient data"]⟩
  | Except.ok ind => finalDecision (scoreSnapshot ind symbol)

/-! ## External opinion adapter (`aiEnhancement.service.js`) -/

/-- A JavaScript value appearing as an element of a provider response
`reasons` array; only the string/non-string distinction matters to the
adapter, which forwards the array untouched. -/
inductive JsVal where
  | str (s : String)
  | num (q : ℚ)
deriving Repr, DecidableEq

/-- Predicate selecting string elements of a response array. -/
def JsVal.isStr : JsVal → Bool
  | JsVal.str _ => true
  | JsVal.num _ => false

/-- Shape of a parsed provider JSON response: each field may be absent or
have the wrong runtime type, tracked with `Option` (a non-number
`confidence` and a non-array `reasons` are modelled as `none`). -/
structure AiResponse where
  signal : Option String
  confidence : Option ℚ
  reasons : Option (List JsVal)
deriving Repr, DecidableEq

/-- Result shape of `getEnhancedSignal`: a `{signal, confidence, reasons,
source}` object possibly carrying an `error` annotation; `reasons` elements
come straight from the provider array, so they are `JsVal`s. -/
structure EnhancedOpinion where
  signal : String
  confidence : ℚ
  reasons : List JsVal
  source : String
  error : Option String
deriving Repr, DecidableEq

/-- JavaScript truthiness of `aiResponseJson.signal`: present and a
nonempty string. -/
def jsTruthySignal : Option String → Prop
  | some s => s ≠ ""
  | none => False

instance : DecidablePred jsTruthySignal := fun o => by
  cases o <;> simp [jsTruthySignal] <;> infer_instance

/-- Mirrors `String.prototype.toLowerCase` for the ASCII strings involved,
expressed on the character list. -/
def jsToLower (s : String) : String := ⟨s.data.map Char.toLower⟩

/-- The spread-plus-tag pattern `{...technicalSignalResult, source:
"technical", error}` used by every fallback path of `getEnhancedSignal`
(the disabled path omits `error`, modelled as `none`). -/
def technicalFallback (tech : SignalOpinion) (err : Option String) :
    EnhancedOpinion :=
  ⟨tech.signal, tech.confidence, tech.reasons.map JsVal.str, "technical", err⟩

/-- Mirrors `getEnhancedSignal(symbol, currentPrice, technicalSignalResult,
indicators)`. The network is abstracted: `handler` is `none` when
`PROVIDER_HANDLERS[provider]` has no entry, `some (Except.error e)` when the
awaited provider call throws with message `e`, and `some (Except.ok r)` when
it resolves to the parsed JSON `r`. Validation checks `signal` truthy,
`confidence` a number and `reasons` an array (`Array.isArray`); success
lowercases the signal and tags the provider as source, any other path
falls back to the technical opinion tagged `source: "technical"`. -/
def getEnhancedSignal (enabled : Bool) (provider : String)
    (handler : Option (Except String AiResponse))
    (tech : SignalOpinion) : EnhancedOpinion :=
  if !enabled then
    technicalFallback tech none
  else
    match handler with
    | none =>
      technicalFallback tech (some "Unsupported/unconfigured AI provider")
    | some (Except.error e) => technicalFallback tech (some e)
    | some (Except.ok r) =>
      if jsTruthySignal r.signal ∧ r.confidence.isSome ∧ r.reasons.isSome then
        ⟨jsToLower (r.signal.getD ""), r.confidence.getD 0,
         r.reasons.getD [], provider, none⟩
      else
        technicalFallback tech (some "AI response has invalid structure")

/-! ## Signal fusion (merge logic of `analyzeStock`, `analysis.service.js`) -/

/-- Terminal merged record: `{signal, confidence, reasons, source}`. -/
structure FusedSignal where
  signal : String
  confidence : ℚ
  reasons : List String
  source : String
deriving Repr, DecidableEq

/-- Mirrors `Math.round(x)`: round half toward positive infinity,
i.e. the floor of `x + 1/2`. -/
def jsRound (x : ℚ) : ℚ := (Rat.floor (x + 1/2) : ℤ)

/-- Mirrors `[...new Set(l)]`: drop later duplicates, keeping first
occurrences in insertion order. `seen` accumulates elements already kept. -/
def jsSetDedupAux (seen : List String) : List String → List String
  | [] => []
  | x :: xs =>
    if x ∈ seen then jsSetDedupAux seen xs
    else x :: jsSetDedupAux (x :: seen) xs

/-- Entry point of the de-duplication: no element seen yet. -/
def jsSetDedup (l : List String) : List String := jsSetDedupAux [] l

/-- The leading note of the agreement branch:
`` `Both AI and Technical agree: ${aiSignal.signal}.` ``. -/
def agreeNote (s : String) : String :=
  "Both AI and Technical agree: " ++ s ++ "."

/-- The leading note of an override branch, with the winner named first. -/
def overrideNote (winnerName : String) (winner : SignalOpinion)
    (loserName : String) (loser : SignalOpinion) : String :=
  winnerName ++ " (" ++ winner.signal ++ ", confidence " ++
    toString winner.confidence ++ ") overrides " ++ loserName ++ " (" ++
    loser.signal ++ ", confidence " ++ toString loser.confidence ++ ")"

/-- Mirrors the merge block of `analyzeStock` (lines 205–239 of
`analysis.service.js`): agreement averages (with `Math.round`) and unions
reasons through a `Set`; disagreement lets the strictly more confident
opinion override; a disagreement with equal confidences holds, keeping
`Math.max` of the (equal) confidences as the merged confidence. The first
argument plays the `technicalSignal` role and the second the `aiSignal`
role, as at the call site. -/
def fuseSignals (technicalSignal aiSignal : SignalOpinion) : FusedSignal :=
  if aiSignal.signal = technicalSignal.signal then
    { signal := aiSignal.signal
      confidence := jsRound ((aiSignal.confidence + technicalSignal.confidence) / 2)
      reasons := agreeNote aiSignal.signal ::
        jsSetDedup (aiSignal.reasons ++ technicalSignal.reasons)
      source := "ai+technical" }
  else if aiSignal.confidence > technicalSignal.confidence then
    { signal := aiSignal.signal
      confidence := aiSignal.confidence
      reasons := overrideNote "AI" aiSignal "Technical" technicalSignal ::
        aiSignal.reasons
      source := "ai" }
  else if technicalSignal.confidence > aiSignal.confidence then
    { signal := technicalSignal.signal
      confidence := technicalSignal.confidence
      reasons := overrideNote "Technical" technicalSignal "AI" aiSignal ::
        technicalSignal.reasons
      source := "technical" }
  else
    { signal := "hold"
      confidence := max aiSignal.confidence technicalSignal.confidence
      reasons := ["AI and Technical disagree with similar confidence; defaulting to hold."]
      source := "conflict" }

/-! ## Auxiliary definitions for the verification -/

/-- Combined score of a state, used for bounding the hold-branch tie. -/
def scoreSum (st : ScoreState) : ℚ := st.buyConfidence + st.sellConfidence

/-- Modelled from the claim's words (C3): the same scoring pipeline but
with the volume adjustment applied only after all six weighted condition
groups have been evaluated. The source instead applies it between the
fourth and the fifth group. -/
def generateSignalVolumeAfterSix (ind : IndicatorSnapshot)
    (symbol : String) : SignalOpinion :=
  finalDecision (applyVolume ind
    (applyPhase2 ind (applyPhase1 ind (getAnalysisParamsRsi symbol) initScore)))

/-- Modelled from the spec's words for the amended C3: if current volume
exceeds 1.5× the 20-bar average, boost whichever side currently leads by
10 (or both by 5 if tied and nonzero); if it is below 0.7× the average,
reduce the leading side by 5 (or both by 2 if tied and nonzero), clamped
at 0; each case appends an explanatory reason; nothing happens without a
positive average. -/
def volumeAdjustSpec (avg cur : Option ℚ) (st : ScoreState) : ScoreState :=
  match avg, cur with
  | some a, some v =>
    if 0 < a then
      if 3/2 * a < v then
        if st.sellConfidence < st.buyConfidence then
          { st with buyConfidence := st.buyConfidence + 10
                    buySignals := st.buySignals ++
                      ["High volume supports bullish signal"] }
        else if st.buyConfidence < st.sellConfidence then
          { st with sellConfidence := st.sellConfidence + 10
                    sellSignals := st.sellSignals ++
                      ["High volume supports bearish signal"] }
        else if st.buyConfidence = st.sellConfidence ∧ 0 < st.buyConfidence then
          { st with buyConfidence := st.buyConfidence + 5
                    sellConfidence := st.sellConfidence + 5
                    buySignals := st.buySignals ++
                      ["High volume present, but signals are mixed"]
                    sellSignals := st.sellSignals ++
                      ["High volume present, but signals are mixed"] }
        else st
      else if v < 7/10 * a then
        if st.sellConfidence < st.buyConfidence then
          { st with buyConfidence := max 0 (st.buyConfidence - 5)
                    buySignals := st.buySignals ++
                      ["Low volume reduces bullish confidence"] }
        else if st.buyConfidence < st.sellConfidence then
          { st with sellConfidence := max 0 (st.sellConfidence - 5)
                    sellSignals := st.sellSignals ++
                      ["Low volume reduces bearish confidence"] }
        else if st.buyConfidence = st.sellConfidence ∧ 0 < st.buyConfidence then
          { st with buyConfidence := max 0 (st.buyConfidence - 2)
                    sellConfidence := max 0 (st.sellConfidence - 2)
                    buySignals := st.buySignals ++
                      ["Low volume present, confidence reduced"]
                    sellSignals := st.sellSignals ++
                      ["Low volume present, confidence reduced"] }
        else st
      else st
    else st
  | _, _ => st

/-- The pipeline described by the amended C3: volume adjustment between
the fourth and fifth condition groups, stated through `volumeAdjustSpec`. -/
def generateSignalSpecPipeline (ind : IndicatorSnapshot)
    (symbol : String) : SignalOpinion :=
  finalDecision (applyPhase2 ind
    (volumeAdjustSpec ind.avgVolume20 ind.currentVolume
      (applyPhase1 ind (getAnalysisParamsRsi symbol) initScore)))

/-- A trivial instantiation of the external indicator library, used only
to evaluate paths that never consult it. -/
def zeroLib : TechnicalIndicatorsLib :=
  ⟨fun _ _ => 0, fun _ _ => 0, fun _ _ _ _ => ⟨0, 0, 0⟩, fun _ _ _ => ⟨0, 0, 0⟩⟩

/-- A three-bar history, shorter than the 50-bar minimum. -/
def shortBars : List PriceBar :=
  [⟨1, 10, 11, 9, 10, 1000⟩, ⟨2, 10, 12, 9, 11, 1100⟩, ⟨3, 11, 12, 10, 11, 900⟩]

/-- A valid snapshot on which every bullish condition and the high-volume
boost fire at once, driving `buyConfidence` to 15+20+20+15+10+15+25 = 120. -/
def cexSnapshot : IndicatorSnapshot :=
  ⟨102, ⟨0, 101, 100⟩, 10, ⟨1, 0, 1⟩, ⟨150, 0, 300⟩, 200, 200, some 1, some 2⟩

/-- A valid snapshot on which the sell side leads 15–0 when the code runs
the volume block (only the resistance condition has fired), while the buy
side leads 40–15 once the Bollinger and Golden-Cross conditions are in. -/
def csSnapshot : IndicatorSnapshot :=
  ⟨102, ⟨0, 99/2, 49⟩, 50, ⟨0, 0, 0⟩, ⟨150, 0, 300⟩, 50, 100, some 1, some 2⟩

/-- A fifty-bar history of identical bars, meeting the 50-bar minimum. -/
def bars50 : List PriceBar := List.replicate 50 ⟨0, 10, 11, 9, 10, 1000⟩

/-- The snapshot `calculateIndicators` produces from `bars50` under
`zeroLib`: constant closes make support, resistance and last price all 10,
and the 20-bar volume average is 1000. -/
def snap50 : IndicatorSnapshot :=
  ⟨10, ⟨0, 0, 0⟩, 0, ⟨0, 0, 0⟩, ⟨0, 0, 0⟩, 10, 10, some 1000, some 1000⟩

/-- A sample technical opinion used as adapter fallback input. -/
def techSample : SignalOpinion :=
  ⟨"hold", 70, ["No strong buy or sell signals detected"]⟩

/-- A provider response whose `reasons` is an array containing a
non-string element; `Array.isArray` accepts it. -/
def respBadReasons : AiResponse := ⟨some "buy", some 50, some [JsVal.num 1]⟩

/-- A provider response whose `signal` is a string outside
{buy, sell, hold}; validation never checks membership. -/
def respWeirdSignal : AiResponse := ⟨some "STRONG BUY", some 90, some []⟩

/-! ## Theorems -/

/-! ### Generic facts about the scoring primitives -/

theorem addBuyIf_sellConfidence (c : Prop) [Decidable c] (w : ℚ) (r : String)
    (st : ScoreState) : (addBuyIf c w r st).sellConfidence = st.sellConfidence := by
  unfold addBuyIf; split <;> rfl

theorem addBuyIf_sellSignals (c : Prop) [Decidable c] (w : ℚ) (r : String)
    (st : ScoreState) : (addBuyIf c w r st).sellSignals = st.sellSignals := by
  unfold addBuyIf; split <;> rfl

theorem addSellIf_buyConfidence (c : Prop) [Decidable c] (w : ℚ) (r : String)
    (st : ScoreState) : (addSellIf c w r st).buyConfidence = st.buyConfidence := by
  unfold addSellIf; split <;> rfl

theorem addSellIf_buySignals (c : Prop) [Decidable c] (w : ℚ) (r : String)
    (st : ScoreState) : (addSellIf c w r st).buySignals = st.buySignals := by
  unfold addSellIf; split <;> rfl

theorem addBuyIf_buy_le (c : Prop) [Decidable c] {w : ℚ} (hw : 0 ≤ w)
    (r : String) (st : ScoreState) :
    (addBuyIf c w r st).buyConfidence ≤ st.buyConfidence + w := by
  unfold addBuyIf; split
  · simp
  · linarith

theorem addBuyIf_buy_ge (c : Prop) [Decidable c] {w : ℚ} (hw : 0 ≤ w)
    (r : String) (st : ScoreState) :
    st.buyConfidence ≤ (addBuyIf c w r st).buyConfidence := by
  unfold addBuyIf; split
  · simp; linarith
  · linarith

theorem addSellIf_sell_le (c : Prop) [Decidable c] {w : ℚ} (hw : 0 ≤ w)
    (r : String) (st : ScoreState) :
    (addSellIf c w r st).sellConfidence ≤ st.sellConfidence + w := by
  unfold addSellIf; split
  · simp
  · linarith

theorem addSellIf_sell_ge (c : Prop) [Decidable c] {w : ℚ} (hw : 0 ≤ w)
    (r : String) (st : ScoreState) :
    st.sellConfidence ≤ (addSellIf c w r st).sellConfidence := by
  unfold addSellIf; split
  · simp; linarith
  · linarith

theorem addBuyIf_inv (c : Prop) [Decidable c] (w : ℚ) (r : String)
    (st : ScoreState) (h : 0 < st.buyConfidence → st.buySignals ≠ []) :
    0 < (addBuyIf c w r st).buyConfidence → (addBuyIf c w r st).buySignals ≠ [] := by
  unfold addBuyIf; split
  · intro _; simp
  · exact h

theorem addSellIf_inv (c : Prop) [Decidable c] (w : ℚ) (r : String)
    (st : ScoreState) (h : 0 < st.sellConfidence → st.sellSignals ≠ []) :
    0 < (addSellIf c w r st).sellConfidence → (addSellIf c w r st).sellSignals ≠ [] := by
  unfold addSellIf; split
  · intro _; simp
  · exact h

theorem exclusive_pair_sum (c₁ c₂ : Prop) [Decidable c₁] [Decidable c₂]
    (hx : ¬(c₁ ∧ c₂)) {w : ℚ} (hw : 0 ≤ w) (r₁ r₂ : String) (st : ScoreState) :
    scoreSum (addSellIf c₂ w r₂ (addBuyIf c₁ w r₁ st)) ≤ scoreSum st + w := by
  unfold addBuyIf addSellIf scoreSum
  split_ifs with h₁ h₂ h₃
  · exact absurd ⟨h₂, h₁⟩ hx
  · simp; linarith
  · simp; linarith
  · linarith

theorem pair_sum_le (c₁ c₂ : Prop) [Decidable c₁] [Decidable c₂]
    {w₁ w₂ : ℚ} (hw₁ : 0 ≤ w₁) (hw₂ : 0 ≤ w₂) (r₁ r₂ : String)
    (st : ScoreState) :
    scoreSum (addSellIf c₂ w₂ r₂ (addBuyIf c₁ w₁ r₁ st)) ≤ scoreSum st + w₁ + w₂ := by
  unfold addBuyIf addSellIf scoreSum
  split_ifs
  · simp; linarith
  · simp; linarith
  · simp; linarith
  · linarith

theorem ite_w_nonneg (c : Prop) [Decidable c] {w : ℚ} (hw : 0 ≤ w) :
    0 ≤ if c then w else 0 := by split <;> linarith

theorem ite_w_le (c : Prop) [Decidable c] {w : ℚ} (hw : 0 ≤ w) :
    (if c then w else 0) ≤ w := by split <;> linarith

theorem ite_pair_le (c₁ c₂ : Prop) [Decidable c₁] [Decidable c₂]
    (hx : ¬(c₁ ∧ c₂)) {w : ℚ} (hw : 0 ≤ w) :
    (if c₁ then w else 0) + (if c₂ then w else 0) ≤ w := by
  split_ifs with h₁ h₂ h₂
  · exact absurd ⟨h₁, h₂⟩ hx
  · linarith
  · linarith
  · linarith

/-! ### Exact score formulas for the two condition phases -/

theorem applyPhase1_buyConfidence (ind : IndicatorSnapshot) (p : RsiParams)
    (st : ScoreState) :
    (applyPhase1 ind p st).buyConfidence = st.buyConfidence +
      (if ind.lastPrice > ind.sma.sma50 ∧ ind.lastPrice < ind.sma.sma50 * (102/100) then 15 else 0) +
      (if ind.rsi < p.oversold then 20 else 0) +
      (if ind.macd.MACD > ind.macd.signal ∧ ind.macd.histogram > 0 then 20 else 0) +
      (if ind.lastPrice < ind.supportLevel * (105/100) then 15 else 0) := by
  simp only [applyPhase1, addBuyIf, addSellIf,
    apply_ite ScoreState.buyConfidence, ite_self]
  split_ifs <;> ring

theorem applyPhase1_sellConfidence (ind : IndicatorSnapshot) (p : RsiParams)
    (st : ScoreState) :
    (applyPhase1 ind p st).sellConfidence = st.sellConfidence +
      (if ind.lastPrice < ind.sma.sma50 ∧ ind.lastPrice > ind.sma.sma50 * (98/100) then 15 else 0) +
      (if ind.rsi > p.overbought then 20 else 0) +
      (if ind.macd.MACD < ind.macd.signal ∧ ind.macd.histogram < 0 then 20 else 0) +
      (if ind.lastPrice > ind.resistanceLevel * (95/100) then 15 else 0) := by
  simp only [applyPhase1, addBuyIf, addSellIf,
    apply_ite ScoreState.sellConfidence, ite_self]
  split_ifs <;> ring

theorem applyPhase2_buyConfidence (ind : IndicatorSnapshot) (st : ScoreState) :
    (applyPhase2 ind st).buyConfidence = st.buyConfidence +
      (if ind.lastPrice < ind.bollingerBands.lower then 15 else 0) +
      (if ind.sma.sma50 > ind.sma.sma200 ∧ ind.sma.sma50 < ind.sma.sma200 * (102/100) then 25 else 0) := by
  simp only [applyPhase2, addBuyIf, addSellIf,
    apply_ite ScoreState.buyConfidence, ite_self]
  split_ifs <;> ring

theorem applyPhase2_sellConfidence (ind : IndicatorSnapshot) (st : ScoreState) :
    (applyPhase2 ind st).sellConfidence = st.sellConfidence +
      (if ind.lastPrice > ind.bollingerBands.upper then 15 else 0) +
      (if ind.sma.sma50 < ind.sma.sma200 ∧ ind.sma.sma50 > ind.sma.sma200 * (98/100) then 25 else 0) := by
  simp only [applyPhase2, addBuyIf, addSellIf,
    apply_ite ScoreState.sellConfidence, ite_self]
  split_ifs <;> ring

theorem applyPhase1_buySignals (ind : IndicatorSnapshot) (p : RsiParams)
    (st : ScoreState) :
    (applyPhase1 ind p st).buySignals = st.buySignals ++
      (if ind.lastPrice > ind.sma.sma50 ∧ ind.lastPrice < ind.sma.sma50 * (102/100) then ["Price crossed above 50-day SMA"] else []) ++
      (if ind.rsi < p.oversold then ["RSI indicates oversold condition"] else []) ++
      (if ind.macd.MACD > ind.macd.signal ∧ ind.macd.histogram > 0 then ["MACD crossed above signal line"] else []) ++
      (if ind.lastPrice < ind.supportLevel * (105/100) then ["Price near support level"] else []) := by
  simp only [applyPhase1, addBuyIf, addSellIf,
    apply_ite ScoreState.buySignals, ite_self]
  split_ifs <;> simp

theorem applyPhase1_sellSignals (ind : IndicatorSnapshot) (p : RsiParams)
    (st : ScoreState) :
    (applyPhase1 ind p st).sellSignals = st.sellSignals ++
      (if ind.lastPrice < ind.sma.sma50 ∧ ind.lastPrice > ind.sma.sma50 * (98/100) then ["Price crossed below 50-day SMA"] else []) ++
      (if ind.rsi > p.overbought then ["RSI indicates overbought condition"] else []) ++
      (if ind.macd.MACD < ind.macd.signal ∧ ind.macd.histogram < 0 then ["MACD crossed below signal line"] else []) ++
      (if ind.lastPrice > ind.resistanceLevel * (95/100) then ["Price near resistance level"] else []) := by
  simp only [applyPhase1, addBuyIf, addSellIf,
    apply_ite ScoreState.sellSignals, ite_self]
  split_ifs <;> simp

theorem applyPhase2_buySignals (ind : IndicatorSnapshot) (st : ScoreState) :
    (applyPhase2 ind st).buySignals = st.buySignals ++
      (if ind.lastPrice < ind.bollingerBands.lower then ["Price below lower Bollinger Band"] else []) ++
      (if ind.sma.sma50 > ind.sma.sma200 ∧ ind.sma.sma50 < ind.sma.sma200 * (102/100) then ["Golden Cross detected"] else []) := by
  simp only [applyPhase2, addBuyIf, addSellIf,
    apply_ite ScoreState.buySignals, ite_self]
  split_ifs <;> simp

theorem applyPhase2_sellSignals (ind : IndicatorSnapshot) (st : ScoreState) :
    (applyPhase2 ind st).sellSignals = st.sellSignals ++
      (if ind.lastPrice > ind.bollingerBands.upper then ["Price above upper Bollinger Band"] else []) ++
      (if ind.sma.sma50 < ind.sma.sma200 ∧ ind.sma.sma50 > ind.sma.sma200 * (98/100) then ["Death Cross detected"] else []) := by
  simp only [applyPhase2, addBuyIf, addSellIf,
    apply_ite ScoreState.sellSignals, ite_self]
  split_ifs <;> simp

/-! ### Volume-block facts -/

theorem applyVolume_bounds (ind : IndicatorSnapshot) (st : ScoreState)
    (hb : 0 ≤ st.buyConfidence) (hs : 0 ≤ st.sellConfidence) :
    0 ≤ (applyVolume ind st).buyConfidence ∧
    0 ≤ (applyVolume ind st).sellConfidence ∧
    (applyVolume ind st).buyConfidence ≤ st.buyConfidence + 10 ∧
    (applyVolume ind st).sellConfidence ≤ st.sellConfidence + 10 ∧
    scoreSum (applyVolume ind st) ≤ scoreSum st + 10 := by
  unfold applyVolume scoreSum
  split
  · split_ifs <;> refine ⟨?_, ?_, ?_, ?_, ?_⟩ <;> (try simp) <;> (try constructor) <;>
      linarith [max_le hb (show st.buyConfidence - 5 ≤ st.buyConfidence by linarith),
        max_le hs (show st.sellConfidence - 5 ≤ st.sellConfidence by linarith),
        max_le hb (show st.buyConfidence - 2 ≤ st.buyConfidence by linarith),
        max_le hs (show st.sellConfidence - 2 ≤ st.sellConfidence by linarith),
        le_max_left 0 (st.buyConfidence - 5), le_max_left 0 (st.sellConfidence - 5),
        le_max_left 0 (st.buyConfidence - 2), le_max_left 0 (st.sellConfidence - 2)]
  · exact ⟨hb, hs, by linarith, by linarith, by linarith⟩

theorem applyVolume_inv_buy (ind : IndicatorSnapshot) (st : ScoreState)
    (h : 0 < st.buyConfidence → st.buySignals ≠ []) :
    0 < (applyVolume ind st).buyConfidence → (applyVolume ind st).buySignals ≠ [] := by
  unfold applyVolume
  split
  · split_ifs <;> first | exact h | (intro _; simp)
  · exact h

theorem applyVolume_inv_sell (ind : IndicatorSnapshot) (st : ScoreState)
    (h : 0 < st.sellConfidence → st.sellSignals ≠ []) :
    0 < (applyVolume ind st).sellConfidence → (applyVolume ind st).sellSignals ≠ [] := by
  unfold applyVolume
  split
  · split_ifs <;> first | exact h | (intro _; simp)
  · exact h

/-! ### Phase bounds and reason-list invariants -/

theorem applyPhase1_buy_bounds (ind : IndicatorSnapshot) (p : RsiParams)
    (st : ScoreState) (hb : 0 ≤ st.buyConfidence) :
    0 ≤ (applyPhase1 ind p st).buyConfidence ∧
    (applyPhase1 ind p st).buyConfidence ≤ st.buyConfidence + 70 := by
  constructor <;> rw [applyPhase1_buyConfidence] <;> split_ifs <;> linarith

theorem applyPhase1_sell_bounds (ind : IndicatorSnapshot) (p : RsiParams)
    (st : ScoreState) (hs : 0 ≤ st.sellConfidence) :
    0 ≤ (applyPhase1 ind p st).sellConfidence ∧
    (applyPhase1 ind p st).sellConfidence ≤ st.sellConfidence + 70 := by
  constructor <;> rw [applyPhase1_sellConfidence] <;> split_ifs <;> linarith

theorem applyPhase1_sum_le (ind : IndicatorSnapshot) (p : RsiParams)
    (st : ScoreState) (hov : p.oversold < p.overbought) :
    scoreSum (applyPhase1 ind p st) ≤ scoreSum st + 85 := by
  have hx1 : ¬((ind.lastPrice > ind.sma.sma50 ∧ ind.lastPrice < ind.sma.sma50 * (102/100)) ∧
      (ind.lastPrice < ind.sma.sma50 ∧ ind.lastPrice > ind.sma.sma50 * (98/100))) := by
    rintro ⟨⟨a, -⟩, ⟨b, -⟩⟩; linarith
  have hx2 : ¬((ind.rsi < p.oversold) ∧ (ind.rsi > p.overbought)) := by
    rintro ⟨a, b⟩; linarith
  have hx3 : ¬((ind.macd.MACD > ind.macd.signal ∧ ind.macd.histogram > 0) ∧
      (ind.macd.MACD < ind.macd.signal ∧ ind.macd.histogram < 0)) := by
    rintro ⟨⟨a, -⟩, ⟨b, -⟩⟩; linarith
  have e1 := ite_pair_le _ _ hx1 (show (0:ℚ) ≤ 15 by norm_num)
  have e2 := ite_pair_le _ _ hx2 (show (0:ℚ) ≤ 20 by norm_num)
  have e3 := ite_pair_le _ _ hx3 (show (0:ℚ) ≤ 20 by norm_num)
  have e4 := ite_w_le (ind.lastPrice < ind.supportLevel * (105/100))
    (show (0:ℚ) ≤ 15 by norm_num)
  have e5 := ite_w_le (ind.lastPrice > ind.resistanceLevel * (95/100))
    (show (0:ℚ) ≤ 15 by norm_num)
  unfold scoreSum
  rw [applyPhase1_buyConfidence, applyPhase1_sellConfidence]
  linarith

theorem applyPhase2_buy_bounds (ind : IndicatorSnapshot) (st : ScoreState)
    (hb : 0 ≤ st.buyConfidence) :
    0 ≤ (applyPhase2 ind st).buyConfidence ∧
    (applyPhase2 ind st).buyConfidence ≤ st.buyConfidence + 40 := by
  constructor <;> rw [applyPhase2_buyConfidence] <;> split_ifs <;> linarith

theorem applyPhase2_sell_bounds (ind : IndicatorSnapshot) (st : ScoreState)
    (hs : 0 ≤ st.sellConfidence) :
    0 ≤ (applyPhase2 ind st).sellConfidence ∧
    (applyPhase2 ind st).sellConfidence ≤ st.sellConfidence + 40 := by
  constructor <;> rw [applyPhase2_sellConfidence] <;> split_ifs <;> linarith

theorem applyPhase2_sum_le (ind : IndicatorSnapshot) (st : ScoreState) :
    scoreSum (applyPhase2 ind st) ≤ scoreSum st + 55 := by
  have hx : ¬((ind.sma.sma50 > ind.sma.sma200 ∧ ind.sma.sma50 < ind.sma.sma200 * (102/100)) ∧
      (ind.sma.sma50 < ind.sma.sma200 ∧ ind.sma.sma50 > ind.sma.sma200 * (98/100))) := by
    rintro ⟨⟨a, -⟩, ⟨b, -⟩⟩; linarith
  have e1 := ite_pair_le _ _ hx (show (0:ℚ) ≤ 25 by norm_num)
  have e2 := ite_w_le (ind.lastPrice < ind.bollingerBands.lower)
    (show (0:ℚ) ≤ 15 by norm_num)
  have e3 := ite_w_le (ind.lastPrice > ind.bollingerBands.upper)
    (show (0:ℚ) ≤ 15 by norm_num)
  unfold scoreSum
  rw [applyPhase2_buyConfidence, applyPhase2_sellConfidence]
  linarith

theorem applyPhase1_inv_buy (ind : IndicatorSnapshot) (p : RsiParams)
    (st : ScoreState) (h : 0 < st.buyConfidence → st.buySignals ≠ []) :
    0 < (applyPhase1 ind p st).buyConfidence →
      (applyPhase1 ind p st).buySignals ≠ [] := by
  rw [applyPhase1_buyConfidence, applyPhase1_buySignals]
  split_ifs <;> simp_all

theorem applyPhase1_inv_sell (ind : IndicatorSnapshot) (p : RsiParams)
    (st : ScoreState) (h : 0 < st.sellConfidence → st.sellSignals ≠ []) :
    0 < (applyPhase1 ind p st).sellConfidence →
      (applyPhase1 ind p st).sellSignals ≠ [] := by
  rw [applyPhase1_sellConfidence, applyPhase1_sellSignals]
  split_ifs <;> simp_all

theorem applyPhase2_inv_buy (ind : IndicatorSnapshot)
    (st : ScoreState) (h : 0 < st.buyConfidence → st.buySignals ≠ []) :
    0 < (applyPhase2 ind st).buyConfidence →
      (applyPhase2 ind st).buySignals ≠ [] := by
  rw [applyPhase2_buyConfidence, applyPhase2_buySignals]
  split_ifs <;> simp_all

theorem applyPhase2_inv_sell (ind : IndicatorSnapshot)
    (st : ScoreState) (h : 0 < st.sellConfidence → st.sellSignals ≠ []) :
    0 < (applyPhase2 ind st).sellConfidence →
      (applyPhase2 ind st).sellSignals ≠ [] := by
  rw [applyPhase2_sellConfidence, applyPhase2_sellSignals]
  split_ifs <;> simp_all

/-! ### Configuration facts -/

theorem getAnalysisParamsRsi_oversold_lt_overbought (symbol : String) :
    (getAnalysisParamsRsi symbol).oversold < (getAnalysisParamsRsi symbol).overbought := by
  unfold getAnalysisParamsRsi configCryptoRsi configAnalysisRsi
  split <;> norm_num

theorem isCryptocurrency_empty : isCryptocurrency "" = false := by decide

theorem getAnalysisParamsRsi_empty : getAnalysisParamsRsi "" = configAnalysisRsi := by
  unfold getAnalysisParamsRsi
  rw [isCryptocurrency_empty]
  rfl

theorem jsRound_eq_intFloor (x : ℚ) : jsRound x = ((⌊x + 1/2⌋ : ℤ) : ℚ) := by
  unfold jsRound
  rw [Rat.floor_def' (x + 1/2), ← Rat.floor_def]

/-! ### Combined properties of the full score pipeline -/

theorem scoreSnapshot_props (ind : IndicatorSnapshot) (symbol : String) :
    0 ≤ (scoreSnapshot ind symbol).buyConfidence ∧
    0 ≤ (scoreSnapshot ind symbol).sellConfidence ∧
    (scoreSnapshot ind symbol).buyConfidence ≤ 120 ∧
    (scoreSnapshot ind symbol).sellConfidence ≤ 120 ∧
    scoreSum (scoreSnapshot ind symbol) ≤ 150 ∧
    (0 < (scoreSnapshot ind symbol).buyConfidence →
      (scoreSnapshot ind symbol).buySignals ≠ []) ∧
    (0 < (scoreSnapshot ind symbol).sellConfidence →
      (scoreSnapshot ind symbol).sellSignals ≠ []) := by
  unfold scoreSnapshot
  have h0b : (0:ℚ) ≤ initScore.buyConfidence := by norm_num [initScore]
  have h0s : (0:ℚ) ≤ initScore.sellConfidence := by norm_num [initScore]
  have h0b' : initScore.buyConfidence = 0 := rfl
  have h0s' : initScore.sellConfidence = 0 := rfl
  have h0sum : scoreSum initScore = 0 := by norm_num [scoreSum, initScore]
  obtain ⟨p1b0, p1b1⟩ :=
    applyPhase1_buy_bounds ind (getAnalysisParamsRsi symbol) initScore h0b
  obtain ⟨p1s0, p1s1⟩ :=
    applyPhase1_sell_bounds ind (getAnalysisParamsRsi symbol) initScore h0s
  have p1sum := applyPhase1_sum_le ind (getAnalysisParamsRsi symbol) initScore
    (getAnalysisParamsRsi_oversold_lt_overbought symbol)
  obtain ⟨v0b, v0s, vb, vs, vsum⟩ := applyVolume_bounds ind
    (applyPhase1 ind (getAnalysisParamsRsi symbol) initScore) p1b0 p1s0
  obtain ⟨p2b0, p2b1⟩ := applyPhase2_buy_bounds ind
    (applyVolume ind (applyPhase1 ind (getAnalysisParamsRsi symbol) initScore)) v0b
  obtain ⟨p2s0, p2s1⟩ := applyPhase2_sell_bounds ind
    (applyVolume ind (applyPhase1 ind (getAnalysisParamsRsi symbol) initScore)) v0s
  have p2sum := applyPhase2_sum_le ind
    (applyVolume ind (applyPhase1 ind (getAnalysisParamsRsi symbol) initScore))
  have hinv0b : 0 < initScore.buyConfidence → initScore.buySignals ≠ [] := by
    intro h; exact absurd h (by norm_num [initScore])
  have hinv0s : 0 < initScore.sellConfidence → initScore.sellSignals ≠ [] := by
    intro h; exact absurd h (by norm_num [initScore])
  have hinvb := applyPhase2_inv_buy ind _
    (applyVolume_inv_buy ind _
      (applyPhase1_inv_buy ind (getAnalysisParamsRsi symbol) initScore hinv0b))
  have hinvs := applyPhase2_inv_sell ind _
    (applyVolume_inv_sell ind _
      (applyPhase1_inv_sell ind (getAnalysisParamsRsi symbol) initScore hinv0s))
  refine ⟨p2b0, p2s0, by linarith, by linarith, by linarith, hinvb, hinvs⟩

/-! ### List facts for support/resistance -/

theorem jsMinList_le : ∀ (l : List ℚ) (x : ℚ), x ∈ l → jsMinList l ≤ x
  | [], _, hx => absurd hx (List.not_mem_nil _)
  | [a], x, hx => by
    have hxa : x = a := by simpa using hx
    subst hxa; exact le_refl x
  | a :: b :: t, x, hx => by
    rcases List.mem_cons.mp hx with h | h
    · subst h; exact min_le_left _ _
    · exact le_trans (min_le_right _ _) (jsMinList_le (b :: t) x h)

theorem le_jsMaxList : ∀ (l : List ℚ) (x : ℚ), x ∈ l → x ≤ jsMaxList l
  | [], _, hx => absurd hx (List.not_mem_nil _)
  | [a], x, hx => by
    have hxa : x = a := by simpa using hx
    subst hxa; exact le_refl x
  | a :: b :: t, x, hx => by
    rcases List.mem_cons.mp hx with h | h
    · subst h; exact le_max_left _ _
    · exact le_trans (le_jsMaxList (b :: t) x h) (le_max_right _ _)

theorem getLastD_mem_jsSliceLast (k : ℕ) (hk : 0 < k) (l : List ℚ)
    (hl : l ≠ []) : (l.getLast?).getD 0 ∈ jsSliceLast k l := by
  unfold jsSliceLast
  have hlen : l.length - k < l.length := Nat.sub_lt (List.length_pos.mpr hl) hk
  have hd : l.drop (l.length - k) ≠ [] := by
    intro hnil
    have hle := List.drop_eq_nil_iff.mp hnil
    omega
  have heq : (l.drop (l.length - k)).getLast? = l.getLast? := by
    conv_rhs => rw [← List.take_append_drop (l.length - k) l]
    rw [List.getLast?_append_of_ne_nil _ hd]
  rw [← heq, List.getLast?_eq_getLast_of_ne_nil hd]
  simpa using List.getLast_mem hd

/-! ### Further infrastructure lemmas -/

theorem calculateIndicators_ok (lib : TechnicalIndicatorsLib)
    (bars : List PriceBar) (symbol : String) (h : ¬ bars.length < 50) :
    calculateIndicators lib (some bars) symbol = Except.ok
      { lastPrice := ((bars.map PriceBar.close).getLast?).getD 0
        sma := ⟨lib.smaLast 20 (bars.map PriceBar.close),
                lib.smaLast 50 (bars.map PriceBar.close),
                lib.smaLast 200 (bars.map PriceBar.close)⟩
        rsi := lib.rsiLast (getAnalysisParamsRsi symbol).period (bars.map PriceBar.close)
        macd := lib.macdLast 12 26 9 (bars.map PriceBar.close)
        bollingerBands := lib.bbLast (getAnalysisParamsBb symbol).period
          (getAnalysisParamsBb symbol).stdDev (bars.map PriceBar.close)
        supportLevel := jsMinList (jsSliceLast configLookbackPeriod (bars.map PriceBar.close))
        resistanceLevel := jsMaxList (jsSliceLast configLookbackPeriod (bars.map PriceBar.close))
        avgVolume20 := some (((jsSliceLast 20 (bars.map PriceBar.volume)).foldl (· + ·) (0 : ℚ)) /
          ((max (jsSliceLast 20 (bars.map PriceBar.volume)).length 1 : ℕ) : ℚ))
        currentVolume := some (((bars.map PriceBar.volume).getLast?).getD 0) } := by
  simp only [calculateIndicators]
  rw [if_neg h]

theorem applyVolume_eq_spec (ind : IndicatorSnapshot) (st : ScoreState) :
    applyVolume ind st = volumeAdjustSpec ind.avgVolume20 ind.currentVolume st := by
  unfold applyVolume volumeAdjustSpec
  cases ind.currentVolume <;> cases ind.avgVolume20 <;> try rfl
  dsimp only
  split_ifs <;> first | rfl | (exfalso; linarith)

/-! ## Claim theorems -/

/-- C1: for a null bar sequence, and for every bar sequence shorter than
50 elements, `calculateIndicators` returns the insufficient-data error
(never a snapshot), and `generateSignal` on that result is exactly
`{signal: hold, confidence: 0, reasons: ["Insufficient data"]}`, whatever
symbols are passed to either function. -/
theorem claim_C1 (lib : TechnicalIndicatorsLib) (data : Option (List PriceBar))
    (sym1 sym2 : String)
    (h : data = none ∨ ∃ bars, data = some bars ∧ bars.length < 50) :
    calculateIndicators lib data sym1 = Except.error "Insufficient data for analysis" ∧
    generateSignal (calculateIndicators lib data sym1) sym2 =
      ⟨"hold", 0, ["Insufficient data"]⟩ := by
  have herr : calculateIndicators lib data sym1 =
      Except.error "Insufficient data for analysis" := by
    rcases h with rfl | ⟨bars, rfl, hlen⟩
    · rfl
    · simp only [calculateIndicators]
      rw [if_pos hlen]
  exact ⟨herr, by rw [herr]; rfl⟩

/-- Witness for C1 at a concrete three-bar history. -/
theorem claim_C1_witness :
    calculateIndicators zeroLib (some shortBars) "AAPL" =
      Except.error "Insufficient data for analysis" ∧
    generateSignal (calculateIndicators zeroLib (some shortBars) "AAPL") "BTC-USD" =
      ⟨"hold", 0, ["Insufficient data"]⟩ :=
  claim_C1 zeroLib (some shortBars) "AAPL" "BTC-USD"
    (Or.inr ⟨shortBars, rfl, by decide⟩)

/-- C2 counterexample: on `cexSnapshot` (a valid snapshot, no error field,
all referenced fields numeric) the generated signal has confidence 120,
outside the claimed interval [0, 100]. -/
theorem claim_C2_counterexample :
    (generateSignal (Except.ok cexSnapshot) "").confidence = 120 ∧
    ¬ (generateSignal (Except.ok cexSnapshot) "").confidence ≤ 100 := by
  have h1 : applyPhase1 cexSnapshot (getAnalysisParamsRsi "") initScore =
      ⟨70, 0, ["Price crossed above 50-day SMA", "RSI indicates oversold condition",
        "MACD crossed above signal line", "Price near support level"], []⟩ := by
    rw [getAnalysisParamsRsi_empty]
    norm_num [applyPhase1, addBuyIf, addSellIf, initScore, cexSnapshot, configAnalysisRsi]
  have h2 : applyVolume cexSnapshot
      ⟨70, 0, ["Price crossed above 50-day SMA", "RSI indicates oversold condition",
        "MACD crossed above signal line", "Price near support level"], []⟩ =
      ⟨80, 0, ["Price crossed above 50-day SMA", "RSI indicates oversold condition",
        "MACD crossed above signal line", "Price near support level",
        "High volume supports bullish signal"], []⟩ := by
    norm_num [applyVolume, cexSnapshot]
  have h3 : applyPhase2 cexSnapshot
      ⟨80, 0, ["Price crossed above 50-day SMA", "RSI indicates oversold condition",
        "MACD crossed above signal line", "Price near support level",
        "High volume supports bullish signal"], []⟩ =
      ⟨120, 0, ["Price crossed above 50-day SMA", "RSI indicates oversold condition",
        "MACD crossed above signal line", "Price near support level",
        "High volume supports bullish signal", "Price below lower Bollinger Band",
        "Golden Cross detected"], []⟩ := by
    norm_num [applyPhase2, addBuyIf, addSellIf, cexSnapshot]
  have hg : generateSignal (Except.ok cexSnapshot) "" =
      ⟨"buy", 120, ["Price crossed above 50-day SMA", "RSI indicates oversold condition",
        "MACD crossed above signal line", "Price near support level",
        "High volume supports bullish signal", "Price below lower Bollinger Band",
        "Golden Cross detected"]⟩ := by
    show finalDecision (scoreSnapshot cexSnapshot "") = _
    unfold scoreSnapshot
    rw [h1, h2, h3]
    norm_num [finalDecision, configSignalThreshold]
  rw [hg]
  norm_num

/-- C2 amended: for every valid snapshot and symbol, the confidence lies
in [0, 120] (the additive weights 15+20+20+15 plus the 10-point volume
boost plus 15+25 can reach 120, so 100 is not an upper bound) and the
reasons list is non-empty. -/
theorem claim_C2_amended (ind : IndicatorSnapshot) (symbol : String) :
    0 ≤ (generateSignal (Except.ok ind) symbol).confidence ∧
    (generateSignal (Except.ok ind) symbol).confidence ≤ 120 ∧
    (generateSignal (Except.ok ind) symbol).reasons ≠ [] := by
  obtain ⟨hb0, hs0, hb1, hs1, hsum, hib, his⟩ := scoreSnapshot_props ind symbol
  unfold scoreSum at hsum
  show 0 ≤ (finalDecision (scoreSnapshot ind symbol)).confidence ∧
    (finalDecision (scoreSnapshot ind symbol)).confidence ≤ 120 ∧
    (finalDecision (scoreSnapshot ind symbol)).reasons ≠ []
  have h30 : configSignalThreshold = (30:ℚ) := rfl
  unfold finalDecision
  split_ifs with h1 h2
  · exact ⟨hb0, hb1, hib (by linarith [h1.2])⟩
  · exact ⟨hs0, hs1, his (by linarith [h2.2])⟩
  · push_neg at h1 h2
    have hmaxle : max (scoreSnapshot ind symbol).buyConfidence
        (scoreSnapshot ind symbol).sellConfidence ≤ 100 := by
      rcases lt_trichotomy (scoreSnapshot ind symbol).buyConfidence
        (scoreSnapshot ind symbol).sellConfidence with h | h | h
      · rw [max_eq_right h.le]; linarith [h2 h]
      · rw [h, max_self]; linarith
      · rw [max_eq_left h.le]; linarith [h1 h]
    have hmaxge : 0 ≤ max (scoreSnapshot ind symbol).buyConfidence
        (scoreSnapshot ind symbol).sellConfidence := le_max_of_le_left hb0
    refine ⟨?_, ?_, by simp⟩
    · show 0 ≤ 100 - max (scoreSnapshot ind symbol).buyConfidence
        (scoreSnapshot ind symbol).sellConfidence
      linarith
    · show 100 - max (scoreSnapshot ind symbol).buyConfidence
        (scoreSnapshot ind symbol).sellConfidence ≤ 120
      linarith

/-- C3 counterexample: on `csSnapshot`, after all six condition groups the
buy side leads 40 to 15, yet the code (which runs the volume block when
only 15–0 for sell has accumulated) boosts the sell side, ending at buy
confidence 40; the claimed after-six ordering would boost the buy side to
50. The two pipelines disagree, refuting the claimed placement. -/
theorem claim_C3_counterexample :
    (generateSignal (Except.ok csSnapshot) "").confidence = 40 ∧
    (generateSignalVolumeAfterSix csSnapshot "").confidence = 50 ∧
    generateSignal (Except.ok csSnapshot) "" ≠ generateSignalVolumeAfterSix csSnapshot "" := by
  have h1 : applyPhase1 csSnapshot (getAnalysisParamsRsi "") initScore =
      ⟨0, 15, [], ["Price near resistance level"]⟩ := by
    rw [getAnalysisParamsRsi_empty]
    norm_num [applyPhase1, addBuyIf, addSellIf, initScore, csSnapshot, configAnalysisRsi]
  have h2 : applyVolume csSnapshot ⟨0, 15, [], ["Price near resistance level"]⟩ =
      ⟨0, 25, [], ["Price near resistance level",
        "High volume supports bearish signal"]⟩ := by
    norm_num [applyVolume, csSnapshot]
  have h3 : applyPhase2 csSnapshot
      ⟨0, 25, [], ["Price near resistance level", "High volume supports bearish signal"]⟩ =
      ⟨40, 25, ["Price below lower Bollinger Band", "Golden Cross detected"],
       ["Price near resistance level", "High volume supports bearish signal"]⟩ := by
    norm_num [applyPhase2, addBuyIf, addSellIf, csSnapshot]
  have hcode : generateSignal (Except.ok csSnapshot) "" =
      ⟨"buy", 40, ["Price below lower Bollinger Band", "Golden Cross detected"]⟩ := by
    show finalDecision (scoreSnapshot csSnapshot "") = _
    unfold scoreSnapshot
    rw [h1, h2, h3]
    norm_num [finalDecision, configSignalThreshold]
  have h3' : applyPhase2 csSnapshot ⟨0, 15, [], ["Price near resistance level"]⟩ =
      ⟨40, 15, ["Price below lower Bollinger Band", "Golden Cross detected"],
       ["Price near resistance level"]⟩ := by
    norm_num [applyPhase2, addBuyIf, addSellIf, csSnapshot]
  have h2' : applyVolume csSnapshot
      ⟨40, 15, ["Price below lower Bollinger Band", "Golden Cross detected"],
       ["Price near resistance level"]⟩ =
      ⟨50, 15, ["Price below lower Bollinger Band", "Golden Cross detected",
        "High volume supports bullish signal"], ["Price near resistance level"]⟩ := by
    norm_num [applyVolume, csSnapshot]
  have hspec : generateSignalVolumeAfterSix csSnapshot "" =
      ⟨"buy", 50, ["Price below lower Bollinger Band", "Golden Cross detected",
        "High volume supports bullish signal"]⟩ := by
    unfold generateSignalVolumeAfterSix
    rw [h1, h3', h2']
    norm_num [finalDecision, configSignalThreshold]
  rw [hcode, hspec]
  refine ⟨rfl, rfl, ?_⟩
  intro hEq
  have := congrArg SignalOpinion.confidence hEq
  norm_num at this

/-- C3 amended: the volume adjustment is applied after the first four
condition groups (SMA50 band, RSI, MACD, support/resistance proximity)
and before the Bollinger-Band and Golden/Death-Cross conditions; at that
point the leading side is boosted by 10 on high volume (both by 5 when
tied and nonzero) and reduced by 5 clamped at 0 on low volume (both by 2
when tied and nonzero), with explanatory reasons; the 40-to-0 scenario
yields 50 when the lead is measured at that point. -/
theorem claim_C3_amended (ind : IndicatorSnapshot) (symbol : String) :
    generateSignal (Except.ok ind) symbol = generateSignalSpecPipeline ind symbol := by
  show finalDecision (scoreSnapshot ind symbol) = _
  unfold generateSignalSpecPipeline scoreSnapshot
  rw [applyVolume_eq_spec]

/-- C4: the final decision of `generateSignal` picks buy exactly when the
buy score strictly exceeds the sell score and reaches the threshold 30,
symmetrically for sell, and in every other case (including ties at or
above the threshold) holds with confidence `100 - max(buy, sell)` and the
single default reason. -/
theorem claim_C4 (ind : IndicatorSnapshot) (symbol : String) :
    configSignalThreshold = 30 ∧
    ((generateSignal (Except.ok ind) symbol).signal = "buy" ↔
      (scoreSnapshot ind symbol).buyConfidence > (scoreSnapshot ind symbol).sellConfidence ∧
      (scoreSnapshot ind symbol).buyConfidence ≥ configSignalThreshold) ∧
    ((generateSignal (Except.ok ind) symbol).signal = "sell" ↔
      (scoreSnapshot ind symbol).sellConfidence > (scoreSnapshot ind symbol).buyConfidence ∧
      (scoreSnapshot ind symbol).sellConfidence ≥ configSignalThreshold) ∧
    ((generateSignal (Except.ok ind) symbol).signal = "hold" ↔
      (¬((scoreSnapshot ind symbol).buyConfidence > (scoreSnapshot ind symbol).sellConfidence ∧
          (scoreSnapshot ind symbol).buyConfidence ≥ configSignalThreshold) ∧
       ¬((scoreSnapshot ind symbol).sellConfidence > (scoreSnapshot ind symbol).buyConfidence ∧
          (scoreSnapshot ind symbol).sellConfidence ≥ configSignalThreshold))) ∧
    (generateSignal (Except.ok ind) symbol).confidence =
      (if (scoreSnapshot ind symbol).buyConfidence > (scoreSnapshot ind symbol).sellConfidence ∧
          (scoreSnapshot ind symbol).buyConfidence ≥ configSignalThreshold then
        (scoreSnapshot ind symbol).buyConfidence
      else if (scoreSnapshot ind symbol).sellConfidence > (scoreSnapshot ind symbol).buyConfidence ∧
          (scoreSnapshot ind symbol).sellConfidence ≥ configSignalThreshold then
        (scoreSnapshot ind symbol).sellConfidence
      else 100 - max (scoreSnapshot ind symbol).buyConfidence (scoreSnapshot ind symbol).sellConfidence) ∧
    (generateSignal (Except.ok ind) symbol).reasons =
      (if (scoreSnapshot ind symbol).buyConfidence > (scoreSnapshot ind symbol).sellConfidence ∧
          (scoreSnapshot ind symbol).buyConfidence ≥ configSignalThreshold then
        (scoreSnapshot ind symbol).buySignals
      else if (scoreSnapshot ind symbol).sellConfidence > (scoreSnapshot ind symbol).buyConfidence ∧
          (scoreSnapshot ind symbol).sellConfidence ≥ configSignalThreshold then
        (scoreSnapshot ind symbol).sellSignals
      else ["No strong buy or sell signals detected"]) := by
  have hg : generateSignal (Except.ok ind) symbol =
      finalDecision (scoreSnapshot ind symbol) := rfl
  rw [hg]
  unfold finalDecision
  split_ifs with h1 h2
  · refine ⟨rfl, iff_of_true rfl h1,
      iff_of_false (by decide : ¬("buy":String) = "sell")
        (fun hw => absurd hw.1 (lt_asymm h1.1)),
      iff_of_false (by decide : ¬("buy":String) = "hold")
        (fun hw => hw.1 h1), rfl, rfl⟩
  · refine ⟨rfl,
      iff_of_false (by decide : ¬("sell":String) = "buy")
        (fun hw => absurd hw.1 (lt_asymm h2.1)),
      iff_of_true rfl h2,
      iff_of_false (by decide : ¬("sell":String) = "hold")
        (fun hw => hw.2 h2), rfl, rfl⟩
  · exact ⟨rfl, iff_of_false (by decide : ¬("hold":String) = "buy") h1,
      iff_of_false (by decide : ¬("hold":String) = "sell") h2,
      iff_of_true rfl ⟨h1, h2⟩, rfl, rfl⟩

/-- C5: when the two opinions carry the same signal, the fused result
keeps that signal, averages the confidences with `Math.round`, prefixes
the agreement note to the duplicate-free union of the two reason lists,
and is tagged `ai+technical`. -/
theorem claim_C5 (tech ai : SignalOpinion) (h : ai.signal = tech.signal) :
    fuseSignals tech ai =
      ⟨ai.signal, jsRound ((ai.confidence + tech.confidence) / 2),
       agreeNote ai.signal :: jsSetDedup (ai.reasons ++ tech.reasons),
       "ai+technical"⟩ := by
  unfold fuseSignals
  rw [if_pos h]

/-- Witness for C5: technical {buy, 30} and ai {buy, 50} fuse to
confidence round((30+50)/2) = 40 with source `ai+technical`. -/
theorem claim_C5_witness :
    fuseSignals ⟨"buy", 30, ["tech reason"]⟩ ⟨"buy", 50, ["ai reason"]⟩ =
      ⟨"buy", 40, [agreeNote "buy", "ai reason", "tech reason"], "ai+technical"⟩ := by
  rw [claim_C5 ⟨"buy", 30, ["tech reason"]⟩ ⟨"buy", 50, ["ai reason"]⟩ rfl,
    jsRound_eq_intFloor]
  norm_num [jsSetDedup, jsSetDedupAux]
  decide

/-- C6: when the signals differ but the confidences are equal, the fused
result is hold at that shared confidence with the single conflict note
and source `conflict`. -/
theorem claim_C6 (tech ai : SignalOpinion) (hs : ai.signal ≠ tech.signal)
    (hc : ai.confidence = tech.confidence) :
    fuseSignals tech ai =
      ⟨"hold", tech.confidence,
       ["AI and Technical disagree with similar confidence; defaulting to hold."],
       "conflict"⟩ := by
  unfold fuseSignals
  rw [if_neg hs, if_neg (by rw [hc]; exact lt_irrefl _),
    if_neg (by rw [hc]; exact lt_irrefl _), hc, max_self]

/-- Witness for C6: technical {buy, 40} and ai {sell, 40} fuse to a hold
tagged `conflict`. -/
theorem claim_C6_witness :
    fuseSignals ⟨"buy", 40, ["tb"]⟩ ⟨"sell", 40, ["sa"]⟩ =
      ⟨"hold", 40,
       ["AI and Technical disagree with similar confidence; defaulting to hold."],
       "conflict"⟩ :=
  claim_C6 ⟨"buy", 40, ["tb"]⟩ ⟨"sell", 40, ["sa"]⟩ (by decide) rfl

/-- C7: with differing signals and differing confidences the strictly
more confident opinion determines the fused signal and confidence, and
swapping which opinion plays the technical and which the ai role flips
the source tag between `ai` and `technical` while preserving the fused
signal and confidence. -/
theorem claim_C7 (tech ai : SignalOpinion) (hs : ai.signal ≠ tech.signal)
    (_hc : ai.confidence ≠ tech.confidence) :
    (ai.confidence > tech.confidence →
      (fuseSignals tech ai).signal = ai.signal ∧
      (fuseSignals tech ai).confidence = ai.confidence ∧
      (fuseSignals tech ai).source = "ai" ∧
      (fuseSignals ai tech).signal = ai.signal ∧
      (fuseSignals ai tech).confidence = ai.confidence ∧
      (fuseSignals ai tech).source = "technical") ∧
    (tech.confidence > ai.confidence →
      (fuseSignals tech ai).signal = tech.signal ∧
      (fuseSignals tech ai).confidence = tech.confidence ∧
      (fuseSignals tech ai).source = "technical" ∧
      (fuseSignals ai tech).signal = tech.signal ∧
      (fuseSignals ai tech).confidence = tech.confidence ∧
      (fuseSignals ai tech).source = "ai") := by
  constructor
  · intro hgt
    have h1 : fuseSignals tech ai =
        ⟨ai.signal, ai.confidence,
         overrideNote "AI" ai "Technical" tech :: ai.reasons, "ai"⟩ := by
      unfold fuseSignals
      rw [if_neg hs, if_pos hgt]
    have h2 : fuseSignals ai tech =
        ⟨ai.signal, ai.confidence,
         overrideNote "Technical" ai "AI" tech :: ai.reasons, "technical"⟩ := by
      unfold fuseSignals
      rw [if_neg (fun hh => hs hh.symm), if_neg (not_lt.mpr hgt.le), if_pos hgt]
    rw [h1, h2]
    exact ⟨rfl, rfl, rfl, rfl, rfl, rfl⟩
  · intro hgt
    have h1 : fuseSignals tech ai =
        ⟨tech.signal, tech.confidence,
         overrideNote "Technical" tech "AI" ai :: tech.reasons, "technical"⟩ := by
      unfold fuseSignals
      rw [if_neg hs, if_neg (not_lt.mpr hgt.le), if_pos hgt]
    have h2 : fuseSignals ai tech =
        ⟨tech.signal, tech.confidence,
         overrideNote "AI" tech "Technical" ai :: tech.reasons, "ai"⟩ := by
      unfold fuseSignals
      rw [if_neg (fun hh => hs hh.symm), if_pos hgt]
    rw [h1, h2]
    exact ⟨rfl, rfl, rfl, rfl, rfl, rfl⟩

/-- Witness for C7: technical {buy, 20} against ai {sell, 60}: the ai
opinion wins in both role assignments, with flipped source tags. -/
theorem claim_C7_witness :
    (fuseSignals ⟨"buy", 20, ["tb"]⟩ ⟨"sell", 60, ["sa"]⟩).signal = "sell" ∧
    (fuseSignals ⟨"buy", 20, ["tb"]⟩ ⟨"sell", 60, ["sa"]⟩).confidence = 60 ∧
    (fuseSignals ⟨"buy", 20, ["tb"]⟩ ⟨"sell", 60, ["sa"]⟩).source = "ai" ∧
    (fuseSignals ⟨"sell", 60, ["sa"]⟩ ⟨"buy", 20, ["tb"]⟩).signal = "sell" ∧
    (fuseSignals ⟨"sell", 60, ["sa"]⟩ ⟨"buy", 20, ["tb"]⟩).confidence = 60 ∧
    (fuseSignals ⟨"sell", 60, ["sa"]⟩ ⟨"buy", 20, ["tb"]⟩).source = "technical" :=
  (claim_C7 ⟨"buy", 20, ["tb"]⟩ ⟨"sell", 60, ["sa"]⟩ (by decide) (by decide)).1
    (by norm_num)

/-- C8 counterexample: the response `{signal: "buy", confidence: 50,
reasons: [1]}` has a reasons array that is not a list of strings, yet the
adapter accepts it (the code only checks `Array.isArray`), returning a
provider-sourced opinion with no error annotation instead of the claimed
technical fallback. -/
theorem claim_C8_counterexample :
    (∃ v ∈ respBadReasons.reasons.getD [], v.isStr = false) ∧
    getEnhancedSignal true "openai" (some (Except.ok respBadReasons)) techSample =
      ⟨"buy", 50, [JsVal.num 1], "openai", none⟩ ∧
    (getEnhancedSignal true "openai" (some (Except.ok respBadReasons)) techSample).source ≠
      "technical" := by
  decide

/-- C8 amended: the adapter never propagates a failure: disabled
enhancement returns the technical opinion unchanged tagged `technical`;
a missing handler, a thrown provider error, and any response failing the
code's validation (signal truthy, confidence a number, reasons an array —
element types unchecked) all return the technical opinion tagged
`technical` with an error annotation. -/
theorem claim_C8_amended (provider : String) (tech : SignalOpinion)
    (handler : Option (Except String AiResponse)) :
    (getEnhancedSignal false provider handler tech = technicalFallback tech none) ∧
    (getEnhancedSignal true provider none tech =
      technicalFallback tech (some "Unsupported/unconfigured AI provider")) ∧
    (∀ e, getEnhancedSignal true provider (some (Except.error e)) tech =
      technicalFallback tech (some e)) ∧
    (∀ r : AiResponse,
      ¬(jsTruthySignal r.signal ∧ r.confidence.isSome ∧ r.reasons.isSome) →
      getEnhancedSignal true provider (some (Except.ok r)) tech =
        technicalFallback tech (some "AI response has invalid structure")) := by
  refine ⟨rfl, rfl, fun e => rfl, fun r hr => ?_⟩
  have hred : getEnhancedSignal true provider (some (Except.ok r)) tech =
      (if jsTruthySignal r.signal ∧ r.confidence.isSome ∧ r.reasons.isSome then
        (⟨jsToLower (r.signal.getD ""), r.confidence.getD 0,
          r.reasons.getD [], provider, none⟩ : EnhancedOpinion)
      else technicalFallback tech (some "AI response has invalid structure")) := rfl
  rw [hred, if_neg hr]

/-- Witness for C8 at a concrete invalid response (all fields absent). -/
theorem claim_C8_amended_witness :
    getEnhancedSignal true "openai" (some (Except.ok ⟨none, none, none⟩)) techSample =
      technicalFallback techSample (some "AI response has invalid structure") :=
  (claim_C8_amended "openai" techSample none).2.2.2 ⟨none, none, none⟩ (by decide)

/-- C9 counterexample: a validated provider response carrying the signal
"STRONG BUY" produces an opinion whose signal is "strong buy", which is
none of buy, sell, or hold — the adapter lowercases the provider signal
but never checks membership. -/
theorem claim_C9_counterexample :
    (getEnhancedSignal true "openai" (some (Except.ok respWeirdSignal)) techSample).signal =
      "strong buy" ∧
    "strong buy" ∉ (["buy", "sell", "hold"] : List String) := by
  decide

/-- C9 amended: every opinion produced by the rule-based generator has a
signal in {buy, sell, hold}, and fusion preserves membership in that set;
but opinions built from validated provider responses are only lowercased,
so the three-value invariant does not extend to them. -/
theorem claim_C9_amended :
    (∀ (indicators : Except String IndicatorSnapshot) (symbol : String),
      (generateSignal indicators symbol).signal ∈ (["buy", "sell", "hold"] : List String)) ∧
    (∀ tech ai : SignalOpinion,
      tech.signal ∈ (["buy", "sell", "hold"] : List String) →
      ai.signal ∈ (["buy", "sell", "hold"] : List String) →
      (fuseSignals tech ai).signal ∈ (["buy", "sell", "hold"] : List String)) := by
  constructor
  · intro indicators symbol
    cases indicators with
    | error e => simp [generateSignal]
    | ok ind =>
      show (finalDecision (scoreSnapshot ind symbol)).signal ∈ _
      unfold finalDecision
      split_ifs <;> simp
  · intro tech ai ht ha
    unfold fuseSignals
    split_ifs <;> first | exact ha | exact ht | simp

/-- Witness for C9 at concrete opinions in the three-value set. -/
theorem claim_C9_amended_witness :
    (fuseSignals ⟨"buy", 40, ["tb"]⟩ ⟨"sell", 10, ["sa"]⟩).signal ∈
      (["buy", "sell", "hold"] : List String) :=
  claim_C9_amended.2 ⟨"buy", 40, ["tb"]⟩ ⟨"sell", 10, ["sa"]⟩ (by decide) (by decide)

/-- C10: a snapshot computed from at least 50 bars has its last close
between the trailing-window minimum and maximum, since the trailing
30-close window always contains the final close. -/
theorem claim_C10 (lib : TechnicalIndicatorsLib) (bars : List PriceBar)
    (symbol : String) (h : 50 ≤ bars.length) (snap : IndicatorSnapshot)
    (hsnap : calculateIndicators lib (some bars) symbol = Except.ok snap) :
    snap.supportLevel ≤ snap.lastPrice ∧ snap.lastPrice ≤ snap.resistanceLevel := by
  rw [calculateIndicators_ok lib bars symbol (by omega)] at hsnap
  have hinj := Except.ok.inj hsnap
  subst hinj
  have hne : bars.map PriceBar.close ≠ [] := by
    intro hnil
    have hlen : bars.length = 0 := by simpa using congrArg List.length hnil
    omega
  have hmem := getLastD_mem_jsSliceLast configLookbackPeriod
    (by norm_num [configLookbackPeriod]) (bars.map PriceBar.close) hne
  exact ⟨jsMinList_le _ _ hmem, le_jsMaxList _ _ hmem⟩

/-- Witness for C10 at a concrete fifty-bar history. -/
theorem claim_C10_witness :
    snap50.supportLevel ≤ snap50.lastPrice ∧
    snap50.lastPrice ≤ snap50.resistanceLevel :=
  claim_C10 zeroLib bars50 "AAPL" (by simp [bars50]) snap50 (by
    rw [calculateIndicators_ok zeroLib bars50 "AAPL" (by simp [bars50])]
    norm_num [bars50, snap50, zeroLib, jsSliceLast, jsMinList, jsMaxList,
      configLookbackPeriod, List.replicate_succ])

end StockAnalysis
